import Mathlib

/-
Verification of the AR scene core in prototype/src/main/jni/scene.cc.

The development shallowly embeds the parts of scene.cc that the spec talks
about: the YUV-to-RGB color converter, the double-buffered video frame
pipeline (OnFrameAvailable / ConvertYuvToRGBMat), the point-cloud store
(OnXYZijAvailable), the camera-mode state machine (SetCameraType), the
GL initialization / per-frame render skeleton (InitGLContent / Render),
and the viewport setup (SetupViewPort).

Machine bytes are modeled as Nat, C int values as Int.  The double
arithmetic inside Yuv2Rgb uses only the constants 1.370705, 0.698001,
0.337633, 1.732446, inputs below 256, and one truncating conversion to
uint8_t; over this input range the double computation is exact enough that
truncation agrees with exact rational arithmetic at every input (the exact
value is never closer than 1/1000000 to an integer unless it is one, and
the accumulated double rounding error is below 1e-12), so the converter is
embedded with exact integer arithmetic scaled by 1000000 and truncating
division.  The conversion of the truncated value to uint8_t is modeled as
a mod-256 wrap, following the two-complement wrap the spec documents.
-/

set_option linter.unusedVariables false

namespace TangoAR

/-- Wrap of a truncated C double into a uint8_t storage byte: mod-256
representative in [0, 256). -/
def wrapByte (t : Int) : Nat := (t % 256).toNat

/-- Embedding of the anonymous-namespace helper Yuv2Rgb (scene.cc lines
41-46).  The source computes, in double arithmetic,
r = y + 1.370705 * (v - 128), g = y - 0.698001 * (v - 128) - 0.337633 * (u - 128),
b = y + 1.732446 * (u - 128), and stores each into a uint8_t.  Here the
same expressions are scaled by 1000000 into exact integer arithmetic and
truncated with Int.tdiv (C double-to-int conversion truncates toward
zero), then wrapped into a byte. -/
def Yuv2Rgb (yValue uValue vValue : Nat) : Nat × Nat × Nat :=
  let y : Int := yValue
  let u : Int := uValue
  let v : Int := vValue
  ( wrapByte (Int.tdiv (1000000 * y + 1370705 * (v - 128)) 1000000)
  , wrapByte (Int.tdiv (1000000 * y - 698001 * (v - 128) - 337633 * (u - 128)) 1000000)
  , wrapByte (Int.tdiv (1000000 * y + 1732446 * (u - 128)) 1000000) )

/-- Truncation toward zero of a rational, the rounding used by a C
double-to-integer conversion. -/
def ratTrunc (q : ℚ) : ℤ := if 0 ≤ q then ⌊q⌋ else ⌈q⌉

/-- Spec-side formula, written from the words of the spec: R = Y +
1.370705*(V-128), as exact rational arithmetic. -/
def specYuvToRgbR (yValue uValue vValue : Nat) : ℚ :=
  (yValue : ℚ) + (1370705 / 1000000 : ℚ) * ((vValue : ℚ) - 128)

/-- Spec-side formula: G = Y - 0.698001*(V-128) - 0.337633*(U-128). -/
def specYuvToRgbG (yValue uValue vValue : Nat) : ℚ :=
  (yValue : ℚ) - (698001 / 1000000 : ℚ) * ((vValue : ℚ) - 128)
    - (337633 / 1000000 : ℚ) * ((uValue : ℚ) - 128)

/-- Spec-side formula: B = Y + 1.732446*(U-128). -/
def specYuvToRgbB (yValue uValue vValue : Nat) : ℚ :=
  (yValue : ℚ) + (1732446 / 1000000 : ℚ) * ((uValue : ℚ) - 128)

/-- Spec-side storage of an unclamped result byte: truncate toward zero,
then wrap per fixed-width unsigned semantics (mod 256). -/
def specWrapByte (q : ℚ) : Nat := ((ratTrunc q) % 256).toNat

/-- Spec-side converter assembled from the three documented channel
formulas. -/
def specYuv2Rgb (yValue uValue vValue : Nat) : Nat × Nat × Nat :=
  ( specWrapByte (specYuvToRgbR yValue uValue vValue)
  , specWrapByte (specYuvToRgbG yValue uValue vValue)
  , specWrapByte (specYuvToRgbB yValue uValue vValue) )

/-- Pixel format tag of a TangoImageBuffer; the code accepts only
TANGO_HAL_PIXEL_FORMAT_YCrCb_420_SP. -/
inductive PixelFormat
  | YCrCb420SP
  | unsupported
deriving DecidableEq

/-- The video callback argument (format, width, height, raw bytes). -/
structure TangoImageBuffer where
  format : PixelFormat
  width : Nat
  height : Nat
  data : List Nat
deriving DecidableEq

/-- State of the double-buffered video pipeline inside Scene: the members
yuv_width_, yuv_height_, uv_buffer_offset_, yuv_size_, yuv_buffer_,
yuv_temp_buffer_, swap_buffer_signal_, is_yuv_texture_available_, the RGB
output rgb_frame (one entry per pixel, row-major), and the texture id of
yuv_drawable_. -/
@[ext] structure VideoBuffer where
  textureId : Nat
  isAvailable : Bool
  width : Nat
  height : Nat
  uvOffset : Nat
  yuvSize : Nat
  yuvBuffer : List Nat
  yuvTempBuffer : List Nat
  swapSignal : Bool
  rgbFrame : List (Nat × Nat × Nat)
deriving DecidableEq

/-- Model of memcpy(dst, src, count): the first count bytes read from src;
an index past the end of src is an out-of-bounds read, modeled as 0. -/
def memcpyBytes (count : Nat) (data : List Nat) : List Nat :=
  (List.range count).map (fun k => data.getD k 0)

/-- Embedding of Scene::OnFrameAvailable (scene.cc lines 213-248): reject a
zero texture id, reject an unsupported pixel format; on the first accepted
frame latch width/height and allocate the YUV/RGB buffers; then copy
yuv_size_ bytes of the incoming data into the temp slot under the mutex
and raise the swap signal.  The mutex-protected section is one atomic
step. -/
def onFrameAvailable (b : TangoImageBuffer) (s : VideoBuffer) : VideoBuffer :=
  if s.textureId = 0 then s
  else if b.format ≠ PixelFormat.YCrCb420SP then s
  else
    let s1 :=
      if s.isAvailable then s
      else
        { s with
          width := b.width
          height := b.height
          uvOffset := b.width * b.height
          yuvSize := b.width * b.height + b.width * b.height / 2
          yuvBuffer := List.replicate (b.width * b.height + b.width * b.height / 2) 0
          yuvTempBuffer := List.replicate (b.width * b.height + b.width * b.height / 2) 0
          rgbFrame := List.replicate (b.width * b.height) (0, 0, 0)
          isAvailable := true }
    { s1 with
      yuvTempBuffer := memcpyBytes s1.yuvSize b.data
      swapSignal := true }

/-- The x_index computation of ConvertYuvToRGBMat: an odd column index is
replaced by the preceding even index. -/
def xIndex (j : Nat) : Nat := if j % 2 ≠ 0 then j - 1 else j

/-- Luma byte read for pixel (i, j): yuv_buffer_[i * yuv_width_ + j]. -/
def lumaByte (s : VideoBuffer) (i j : Nat) : Nat :=
  s.yuvBuffer.getD (i * s.width + j) 0

/-- Chroma U byte read for pixel (i, j):
yuv_buffer_[uv_buffer_offset_ + (i / 2) * yuv_width_ + x_index + 1]. -/
def chromaUByte (s : VideoBuffer) (i j : Nat) : Nat :=
  s.yuvBuffer.getD (s.uvOffset + (i / 2) * s.width + xIndex j + 1) 0

/-- Chroma V byte read for pixel (i, j):
yuv_buffer_[uv_buffer_offset_ + (i / 2) * yuv_width_ + x_index]. -/
def chromaVByte (s : VideoBuffer) (i j : Nat) : Nat :=
  s.yuvBuffer.getD (s.uvOffset + (i / 2) * s.width + xIndex j) 0

/-- The RGB value written for pixel (i, j) by the conversion loop body. -/
def rgbPixel (s : VideoBuffer) (i j : Nat) : Nat × Nat × Nat :=
  Yuv2Rgb (lumaByte s i j) (chromaUByte s i j) (chromaVByte s i j)

/-- The RGB value for flattened pixel index k = i * width + j. -/
def rgbPixelAt (s : VideoBuffer) (k : Nat) : Nat × Nat × Nat :=
  rgbPixel s (k / s.width) (k % s.width)

/-- One iteration of the conversion loop: write pixel k of rgb_frame. -/
def convertStep (k : Nat) (s : VideoBuffer) : VideoBuffer :=
  { s with rgbFrame := s.rgbFrame.set k (rgbPixelAt s k) }

/-- The conversion loop over a list of flattened pixel indices. -/
def convertFold : List Nat → VideoBuffer → VideoBuffer
  | [], s => s
  | k :: ks, s => convertFold ks (convertStep k s)

/-- The mutex-protected slot swap at the head of ConvertYuvToRGBMat: if the
swap signal is set, exchange yuv_buffer_ and yuv_temp_buffer_ and clear the
signal. -/
def swapPhase (s : VideoBuffer) : VideoBuffer :=
  if s.swapSignal then
    { s with
      yuvBuffer := s.yuvTempBuffer
      yuvTempBuffer := s.yuvBuffer
      swapSignal := false }
  else s

/-- Embedding of Scene::ConvertYuvToRGBMat (scene.cc lines 262-286): the
locked swap phase followed by the per-pixel conversion loop over all
yuv_height_ * yuv_width_ pixels in row-major order. -/
def convertYuvToRGBMat (s : VideoBuffer) : VideoBuffer :=
  let s1 := swapPhase s
  convertFold (List.range (s1.height * s1.width)) s1

/-- Atomic steps of the producer/consumer interleaving on the video
buffer: a producer delivery, the consumer locked swap, and one consumer
conversion-loop iteration. -/
inductive SceneStep
  | deliverFrame (b : TangoImageBuffer)
  | swapPending
  | convertPixel (k : Nat)
deriving DecidableEq

/-- Effect of one step on the video buffer state. -/
def applyStep : SceneStep → VideoBuffer → VideoBuffer
  | SceneStep.deliverFrame b, s => onFrameAvailable b s
  | SceneStep.swapPending, s => swapPhase s
  | SceneStep.convertPixel k, s => convertStep k s

/-- Run a sequence of interleaved steps. -/
def runSteps (l : List SceneStep) (s : VideoBuffer) : VideoBuffer :=
  l.foldl (fun t st => applyStep st t) s

/-- The consumer steps of one ConvertYuvToRGBMat call over n pixels. -/
def consumerTrace (n : Nat) : List SceneStep :=
  SceneStep.swapPending :: (List.range n).map SceneStep.convertPixel

/-- The depth callback argument: a list of 3-D points.  Coordinates are
modeled as exact rationals. -/
structure TangoXYZij where
  xyz : List (ℚ × ℚ × ℚ)

/-- The point-cloud store: the vertices member of Scene, a flat float
vector. -/
structure DepthStore where
  vertices : List ℚ
deriving DecidableEq

/-- The loop body of Scene::OnXYZijAvailable (scene.cc lines 250-260): one
point contributes x * 0.9, y * 1.2, z, in that order, to the flat list. -/
def scaledPoint (p : ℚ × ℚ × ℚ) : List ℚ :=
  [p.1 * (9 / 10), p.2.1 * (12 / 10), p.2.2]

/-- Embedding of Scene::OnXYZijAvailable: build the scaled flat list, then
assign it to vertices under the depth mutex (wholesale replacement). -/
def onXYZijAvailable (d : TangoXYZij) (s : DepthStore) : DepthStore :=
  { vertices := (d.xyz.map scaledPoint).flatten }

/-- The consumer read of the stored vertices (the locked read in Render). -/
def snapshotVertices (s : DepthStore) : List ℚ :=
  s.vertices

/-- Camera modes of tango_gl::GestureCamera used by SetCameraType. -/
inductive CameraType
  | firstPerson
  | thirdPerson
  | topDown
deriving DecidableEq

/-- Scene-graph nodes a drawable can be parented under; the code only ever
parents the video overlay under axis_. -/
inductive SceneNode
  | axisNode
deriving DecidableEq

/-- Parent, scale, position and rotation of a drawable, the state mutated
by SetCameraType.  Rotation is a quaternion (w, x, y, z). -/
structure DrawableTransform where
  parent : Option SceneNode
  scale : ℚ × ℚ × ℚ
  position : ℚ × ℚ × ℚ
  rotation : ℚ × ℚ × ℚ × ℚ
deriving DecidableEq

/-- The mode-dependent state touched by Scene::SetCameraType: the current
camera type, the video overlay transform, the depth-visualization quad
transform, and the two scalar members camera_image_plane_ratio_ and
image_plane_distance_ read by the third-person branch. -/
structure SceneModes where
  cameraType : CameraType
  yuvDrawable : DrawableTransform
  depthDrawable : DrawableTransform
  planeRatioVal : ℚ
  planeDistVal : ℚ
deriving DecidableEq

/-- The documented FirstPerson overlay state: no parent, identity scale,
zero position, identity rotation. -/
def firstPersonOverlayTransform : DrawableTransform :=
  { parent := none
    scale := (1, 1, 1)
    position := (0, 0, 0)
    rotation := (1, 0, 0, 0) }

/-- Embedding of Scene::SetCameraType (scene.cc lines 186-207): store the
mode, unconditionally place the depth quad at its fixed offset, then set
the video overlay either to the first-person identity placement or to the
image-plane placement under axis_. -/
def setCameraType (cameraType : CameraType) (s : SceneModes) : SceneModes :=
  { s with
    cameraType := cameraType
    depthDrawable :=
      { parent := none
        scale := (3 / 10, 3 / 10, 3 / 10)
        position := (6 / 10, -(6 / 10), 0)
        rotation := (1, 0, 0, 0) }
    yuvDrawable :=
      if cameraType = CameraType.firstPerson then
        firstPersonOverlayTransform
      else
        { parent := some SceneNode.axisNode
          scale := (1, s.planeRatioVal, 1)
          position := (0, 0, -s.planeDistVal)
          rotation := (1, 0, 0, 0) } }

/-- A sequence of external mode-change requests applied in order. -/
def applyModeRequests (ms : List CameraType) (s : SceneModes) : SceneModes :=
  ms.foldl (fun t m => setCameraType m t) s

/-- Result of the glCheckFramebufferStatus completeness check, an input of
InitGLContent supplied by the GL driver. -/
inductive FbStatus
  | complete
  | incomplete
deriving DecidableEq

/-- Observable outcome of Scene::InitGLContent (scene.cc lines 55-101): was
the framebuffer error logged, and did initialization still allocate all
drawables and set the initial camera mode afterwards. -/
structure GLInit where
  fbErrorLogged : Bool
  drawablesAllocated : Bool
  initialCameraType : CameraType
deriving DecidableEq

/-- Embedding of Scene::InitGLContent given the completeness status: an
incomplete framebuffer is logged with LOGE, and the function then
continues unconditionally, allocating every drawable and selecting
third-person mode. -/
def initGLContent (status : FbStatus) : GLInit :=
  { fbErrorLogged := decide (status ≠ FbStatus.complete)
    drawablesAllocated := true
    initialCameraType := CameraType.thirdPerson }

/-- The externally visible actions of one Scene::Render call, in program
order. -/
inductive RenderAction
  | convertYuv
  | bindRgbTexture
  | clearMain
  | drawVideoOverlay
  | drawFrustum
  | drawAxis
  | drawTrace
  | depthPassRender
  | blitDepthToMain
  | drawDepthDrawable
  | drawGrid
  | drawCube
deriving DecidableEq

/-- Embedding of the control flow of Scene::Render (scene.cc lines
123-184): return immediately when no YUV texture was ever delivered;
otherwise convert, bind, clear, draw the mode branch, render the point
cloud into the auxiliary framebuffer, blit its depth into the main target,
and draw the remaining overlays.  The GLInit outcome is passed in to
record that the action list never consults the framebuffer status. -/
def renderActions (g : GLInit) (isYuvTextureAvailable : Bool) (cameraType : CameraType) :
    List RenderAction :=
  if isYuvTextureAvailable = false then []
  else
    [RenderAction.convertYuv, RenderAction.bindRgbTexture, RenderAction.clearMain] ++
      (if cameraType = CameraType.firstPerson then
        [RenderAction.drawVideoOverlay]
      else
        [RenderAction.drawFrustum, RenderAction.drawAxis, RenderAction.drawTrace,
          RenderAction.drawVideoOverlay]) ++
      [RenderAction.depthPassRender, RenderAction.blitDepthToMain,
        RenderAction.drawDepthDrawable, RenderAction.drawGrid, RenderAction.drawCube]

/-- Observable outcome of Scene::SetupViewPort (scene.cc lines 115-121):
whether the zero-height error was logged, and the arguments actually
passed on to SetAspectRatio (as the pair (w, h) whose quotient is taken)
and to glViewport. -/
structure ViewportCall where
  heightErrorLogged : Bool
  aspectRatioArg : Option (Int × Int)
  viewportArg : Option (Int × Int × Int × Int)
deriving DecidableEq

/-- Embedding of Scene::SetupViewPort: h = 0 is logged, and the function
then proceeds unconditionally to set the aspect ratio and the viewport. -/
def setupViewPort (x y w h : Int) : ViewportCall :=
  { heightErrorLogged := decide (h = 0)
    aspectRatioArg := some (w, h)
    viewportArg := some (x, y, w, h) }

/-- A fresh Scene video state before any frame was delivered, with a valid
texture id. -/
def initialVideoState : VideoBuffer :=
  { textureId := 7
    isAvailable := false
    width := 0
    height := 0
    uvOffset := 0
    yuvSize := 0
    yuvBuffer := []
    yuvTempBuffer := []
    swapSignal := false
    rgbFrame := [] }

/-- A fresh Scene video state whose GL content was never initialized
(texture id 0). -/
def zeroTexState : VideoBuffer :=
  { initialVideoState with textureId := 0 }

/-- A small running video state: one 2 by 2 frame already active. -/
def testVideoState : VideoBuffer :=
  { textureId := 7
    isAvailable := true
    width := 2
    height := 2
    uvOffset := 4
    yuvSize := 6
    yuvBuffer := [1, 2, 3, 4, 5, 6]
    yuvTempBuffer := [0, 0, 0, 0, 0, 0]
    swapSignal := false
    rgbFrame := List.replicate 4 (0, 0, 0) }

/-- A valid 4 by 2 frame (12 = 8 + 4 bytes). -/
def frame4x2 : TangoImageBuffer :=
  { format := PixelFormat.YCrCb420SP, width := 4, height := 2
    data := List.replicate 12 9 }

/-- A valid 2 by 2 frame (6 = 4 + 2 bytes). -/
def frame2x2 : TangoImageBuffer :=
  { format := PixelFormat.YCrCb420SP, width := 2, height := 2
    data := List.replicate 6 5 }

theorem ratTrunc_intCast_div_natCast (a : ℤ) (d : ℕ) (hd : 0 < d) :
    ratTrunc ((a : ℚ) / (d : ℚ)) = a.tdiv d := by
  have hd0 : (0 : ℚ) < (d : ℚ) := by exact_mod_cast hd
  rcases le_or_lt 0 a with ha | ha
  · have hq : (0 : ℚ) ≤ (a : ℚ) / (d : ℚ) := by
      apply div_nonneg _ (le_of_lt hd0)
      exact_mod_cast ha
    rw [ratTrunc, if_pos hq, Rat.floor_intCast_div_natCast]
    rw [Int.tdiv_eq_ediv ha (by exact_mod_cast Nat.zero_le d)]
  · have hq : ¬ (0 : ℚ) ≤ (a : ℚ) / (d : ℚ) := by
      rw [not_le]
      apply div_neg_of_neg_of_pos _ hd0
      exact_mod_cast ha
    rw [ratTrunc, if_neg hq]
    have h0 : ⌈(a : ℚ) / (d : ℚ)⌉ = -⌊-((a : ℚ) / (d : ℚ))⌋ := by
      rw [Int.floor_neg, neg_neg]
    rw [h0, ← neg_div, ← Int.cast_neg, Rat.floor_intCast_div_natCast]
    have h1 : a.tdiv (d : ℤ) = -((-a).tdiv (d : ℤ)) := by
      rw [Int.neg_tdiv, neg_neg]
    rw [h1, Int.tdiv_eq_ediv (by omega) (by exact_mod_cast Nat.zero_le d)]

theorem specWrapByte_scaled (a : ℤ) :
    specWrapByte ((a : ℚ) / ((1000000 : ℕ) : ℚ)) = wrapByte (a.tdiv 1000000) := by
  rw [specWrapByte, ratTrunc_intCast_div_natCast a 1000000 (by norm_num), wrapByte]
  norm_num

/-- Claim C2: for every 8-bit input triple, Yuv2Rgb returns the three channels of
the documented BT.601-style linear transform R = Y + 1.370705*(V-128),
G = Y - 0.698001*(V-128) - 0.337633*(U-128), B = Y + 1.732446*(U-128),
each truncated and stored as an unsigned byte with no clamping to [0,255]:
out-of-range values wrap mod 256, witnessed by a negative red value that
comes out as 81 (not clamped to 0) and a blue value above 255 that comes
out as 219 (not clamped to 255). -/
theorem c2_yuv2rgb_formula_unclamped :
    (∀ yValue uValue vValue : Nat,
        Yuv2Rgb yValue uValue vValue = specYuv2Rgb yValue uValue vValue) ∧
    specYuvToRgbR 0 128 0 < 0 ∧ (Yuv2Rgb 0 128 0).1 = 81 ∧
    255 < specYuvToRgbB 255 255 128 ∧ (Yuv2Rgb 255 255 128).2.2 = 219 := by
  refine ⟨?_, ?_, ?_, ?_, ?_⟩
  · intro yValue uValue vValue
    have hR : specYuvToRgbR yValue uValue vValue =
        ((1000000 * (yValue : ℤ) + 1370705 * ((vValue : ℤ) - 128) : ℤ) : ℚ)
          / ((1000000 : ℕ) : ℚ) := by
      rw [specYuvToRgbR]
      push_cast
      field_simp
      ring
    have hG : specYuvToRgbG yValue uValue vValue =
        ((1000000 * (yValue : ℤ) - 698001 * ((vValue : ℤ) - 128)
            - 337633 * ((uValue : ℤ) - 128) : ℤ) : ℚ) / ((1000000 : ℕ) : ℚ) := by
      rw [specYuvToRgbG]
      push_cast
      field_simp
      ring
    have hB : specYuvToRgbB yValue uValue vValue =
        ((1000000 * (yValue : ℤ) + 1732446 * ((uValue : ℤ) - 128) : ℤ) : ℚ)
          / ((1000000 : ℕ) : ℚ) := by
      rw [specYuvToRgbB]
      push_cast
      field_simp
      ring
    rw [Yuv2Rgb, specYuv2Rgb, hR, hG, hB, specWrapByte_scaled, specWrapByte_scaled,
      specWrapByte_scaled]
  · rw [specYuvToRgbR]
    norm_num
  · decide
  · rw [specYuvToRgbB]
    norm_num
  · decide

theorem convertFold_width (ks : List Nat) : ∀ s, (convertFold ks s).width = s.width := by
  induction ks with
  | nil => intro s; rfl
  | cons k ks ih => intro s; exact ih (convertStep k s)

theorem convertFold_height (ks : List Nat) : ∀ s, (convertFold ks s).height = s.height := by
  induction ks with
  | nil => intro s; rfl
  | cons k ks ih => intro s; exact ih (convertStep k s)

theorem convertFold_uvOffset (ks : List Nat) : ∀ s, (convertFold ks s).uvOffset = s.uvOffset := by
  induction ks with
  | nil => intro s; rfl
  | cons k ks ih => intro s; exact ih (convertStep k s)

theorem convertFold_yuvSize (ks : List Nat) : ∀ s, (convertFold ks s).yuvSize = s.yuvSize := by
  induction ks with
  | nil => intro s; rfl
  | cons k ks ih => intro s; exact ih (convertStep k s)

theorem convertFold_yuvBuffer (ks : List Nat) :
    ∀ s, (convertFold ks s).yuvBuffer = s.yuvBuffer := by
  induction ks with
  | nil => intro s; rfl
  | cons k ks ih => intro s; exact ih (convertStep k s)

theorem convertFold_yuvTempBuffer (ks : List Nat) :
    ∀ s, (convertFold ks s).yuvTempBuffer = s.yuvTempBuffer := by
  induction ks with
  | nil => intro s; rfl
  | cons k ks ih => intro s; exact ih (convertStep k s)

theorem convertFold_swapSignal (ks : List Nat) :
    ∀ s, (convertFold ks s).swapSignal = s.swapSignal := by
  induction ks with
  | nil => intro s; rfl
  | cons k ks ih => intro s; exact ih (convertStep k s)

theorem convertFold_isAvailable (ks : List Nat) :
    ∀ s, (convertFold ks s).isAvailable = s.isAvailable := by
  induction ks with
  | nil => intro s; rfl
  | cons k ks ih => intro s; exact ih (convertStep k s)

theorem convertFold_textureId (ks : List Nat) :
    ∀ s, (convertFold ks s).textureId = s.textureId := by
  induction ks with
  | nil => intro s; rfl
  | cons k ks ih => intro s; exact ih (convertStep k s)

theorem convertFold_rgb_length (ks : List Nat) :
    ∀ s, (convertFold ks s).rgbFrame.length = s.rgbFrame.length := by
  induction ks with
  | nil => intro s; rfl
  | cons k ks ih =>
      intro s
      rw [convertFold, ih (convertStep k s)]
      simp [convertStep]

theorem rgbPixelAt_convertFold (ks : List Nat) (s : VideoBuffer) (k : Nat) :
    rgbPixelAt (convertFold ks s) k = rgbPixelAt s k := by
  simp [rgbPixelAt, rgbPixel, lumaByte, chromaUByte, chromaVByte, convertFold_width,
    convertFold_yuvBuffer, convertFold_uvOffset]

theorem convertFold_rgb_getElem (ks : List Nat) : ∀ (s : VideoBuffer) (k : Nat),
    (convertFold ks s).rgbFrame[k]? =
      if k ∈ ks ∧ k < s.rgbFrame.length then some (rgbPixelAt s k)
      else s.rgbFrame[k]? := by
  induction ks with
  | nil => intro s k; simp [convertFold]
  | cons k0 ks ih =>
      intro s k
      rw [convertFold, ih (convertStep k0 s)]
      have hlen : (convertStep k0 s).rgbFrame.length = s.rgbFrame.length := by
        simp [convertStep]
      have hpix : rgbPixelAt (convertStep k0 s) k = rgbPixelAt s k := rfl
      have hset : (convertStep k0 s).rgbFrame[k]? =
          if k0 = k then (if k0 < s.rgbFrame.length then some (rgbPixelAt s k0) else none)
          else s.rgbFrame[k]? := by
        simp [convertStep, List.getElem?_set]
      rw [hlen, hpix, hset]
      by_cases hmem : k ∈ ks
      · by_cases hk : k < s.rgbFrame.length
        · rw [if_pos ⟨hmem, hk⟩, if_pos ⟨List.mem_cons_of_mem k0 hmem, hk⟩]
        · have hcond1 : ¬ (k ∈ ks ∧ k < s.rgbFrame.length) := fun hx => hk hx.2
          have hcond2 : ¬ (k ∈ k0 :: ks ∧ k < s.rgbFrame.length) := fun hx => hk hx.2
          rw [if_neg hcond1, if_neg hcond2]
          by_cases heq : k0 = k
          · subst heq
            rw [if_pos rfl, if_neg hk, eq_comm]
            exact List.getElem?_eq_none (by omega)
          · rw [if_neg heq]
      · by_cases heq : k0 = k
        · subst heq
          have hcond1 : ¬ (k0 ∈ ks ∧ k0 < s.rgbFrame.length) := fun hx => hmem hx.1
          rw [if_neg hcond1, if_pos rfl]
          by_cases hk : k0 < s.rgbFrame.length
          · rw [if_pos hk, if_pos ⟨List.mem_cons_self k0 ks, hk⟩]
          · have hcond2 : ¬ (k0 ∈ k0 :: ks ∧ k0 < s.rgbFrame.length) := fun hx => hk hx.2
            rw [if_neg hk, if_neg hcond2, eq_comm]
            exact List.getElem?_eq_none (by omega)
        · have hcond1 : ¬ (k ∈ ks ∧ k < s.rgbFrame.length) := fun hx => hmem hx.1
          have hcond2 : ¬ (k ∈ k0 :: ks ∧ k < s.rgbFrame.length) := fun hx =>
            (List.mem_cons.mp hx.1).elim (fun e => heq e.symm) hmem
          rw [if_neg hcond1, if_neg heq, if_neg hcond2]

theorem swapPhase_width (s : VideoBuffer) : (swapPhase s).width = s.width := by
  rw [swapPhase]; split <;> rfl

theorem swapPhase_height (s : VideoBuffer) : (swapPhase s).height = s.height := by
  rw [swapPhase]; split <;> rfl

theorem swapPhase_uvOffset (s : VideoBuffer) : (swapPhase s).uvOffset = s.uvOffset := by
  rw [swapPhase]; split <;> rfl

theorem swapPhase_yuvSize (s : VideoBuffer) : (swapPhase s).yuvSize = s.yuvSize := by
  rw [swapPhase]; split <;> rfl

theorem swapPhase_isAvailable (s : VideoBuffer) : (swapPhase s).isAvailable = s.isAvailable := by
  rw [swapPhase]; split <;> rfl

theorem swapPhase_textureId (s : VideoBuffer) : (swapPhase s).textureId = s.textureId := by
  rw [swapPhase]; split <;> rfl

theorem swapPhase_rgbFrame (s : VideoBuffer) : (swapPhase s).rgbFrame = s.rgbFrame := by
  rw [swapPhase]; split <;> rfl

theorem swapPhase_swapSignal (s : VideoBuffer) : (swapPhase s).swapSignal = false := by
  rw [swapPhase]; split
  · rfl
  · simp_all

theorem swapPhase_id_of_signal_false (s : VideoBuffer) (h : s.swapSignal = false) :
    swapPhase s = s := by
  rw [swapPhase, h]
  simp

theorem convertYuv_eq (s : VideoBuffer) :
    convertYuvToRGBMat s = convertFold (List.range (s.height * s.width)) (swapPhase s) := by
  rw [convertYuvToRGBMat]
  rw [swapPhase_height, swapPhase_width]

theorem onFrameAvailable_of_available (b : TangoImageBuffer) (s : VideoBuffer)
    (h : s.isAvailable = true) :
    onFrameAvailable b s =
      if s.textureId = 0 then s
      else if b.format ≠ PixelFormat.YCrCb420SP then s
      else { s with yuvTempBuffer := memcpyBytes s.yuvSize b.data, swapSignal := true } := by
  rw [onFrameAvailable]
  simp [h]

theorem onFrameAvailable_preserves (b : TangoImageBuffer) (s : VideoBuffer)
    (h : s.isAvailable = true) :
    (onFrameAvailable b s).width = s.width ∧
    (onFrameAvailable b s).height = s.height ∧
    (onFrameAvailable b s).uvOffset = s.uvOffset ∧
    (onFrameAvailable b s).yuvSize = s.yuvSize ∧
    (onFrameAvailable b s).yuvBuffer = s.yuvBuffer ∧
    (onFrameAvailable b s).rgbFrame = s.rgbFrame ∧
    (onFrameAvailable b s).isAvailable = true ∧
    (onFrameAvailable b s).textureId = s.textureId := by
  rw [onFrameAvailable_of_available b s h]
  by_cases h1 : s.textureId = 0 <;> by_cases h2 : b.format ≠ PixelFormat.YCrCb420SP <;>
    simp [h1, h2, h]

theorem deliver_convertStep_comm (b : TangoImageBuffer) (k : Nat) (s : VideoBuffer)
    (h : s.isAvailable = true) :
    onFrameAvailable b (convertStep k s) = convertStep k (onFrameAvailable b s) := by
  have hc : (convertStep k s).isAvailable = true := h
  rw [onFrameAvailable_of_available b (convertStep k s) hc,
    onFrameAvailable_of_available b s h]
  by_cases h1 : s.textureId = 0
  · simp [convertStep, h1]
  · by_cases h2 : b.format ≠ PixelFormat.YCrCb420SP
    · simp [convertStep, h1, h2]
    · simp only [convertStep, h1, h2, if_false, if_true, ite_false, ite_true]
      rfl

theorem deliver_convertFold_comm (b : TangoImageBuffer) (ks : List Nat) :
    ∀ s : VideoBuffer, s.isAvailable = true →
      onFrameAvailable b (convertFold ks s) = convertFold ks (onFrameAvailable b s) := by
  induction ks with
  | nil => intro s h; rfl
  | cons k ks ih =>
      intro s h
      rw [convertFold, convertFold, ih (convertStep k s) h,
        deliver_convertStep_comm b k s h]

theorem runSteps_map_convert (cl : List Nat) :
    ∀ s : VideoBuffer, runSteps (cl.map SceneStep.convertPixel) s = convertFold cl s := by
  induction cl with
  | nil => intro s; rfl
  | cons c cl ih => intro s; exact ih (convertStep c s)

theorem runSteps_consumerTrace (n : Nat) (s : VideoBuffer) :
    runSteps (consumerTrace n) s = convertFold (List.range n) (swapPhase s) :=
  runSteps_map_convert (List.range n) (swapPhase s)

theorem runSteps_insertIdx_deliver (b : TangoImageBuffer) (cl : List Nat) :
    ∀ (q : Nat) (s : VideoBuffer), s.isAvailable = true →
      runSteps (List.insertIdx q (SceneStep.deliverFrame b) (cl.map SceneStep.convertPixel)) s =
        if q ≤ cl.length then onFrameAvailable b (convertFold cl s) else convertFold cl s := by
  induction cl with
  | nil =>
      intro q s h
      cases q with
      | zero => simp [List.insertIdx_zero, runSteps, applyStep, convertFold]
      | succ n => simp [List.insertIdx_succ_nil, runSteps, convertFold]
  | cons c cl ih =>
      intro q s h
      cases q with
      | zero =>
          rw [List.insertIdx_zero]
          have h1 : runSteps
              (SceneStep.deliverFrame b :: (c :: cl).map SceneStep.convertPixel) s =
              runSteps ((c :: cl).map SceneStep.convertPixel) (onFrameAvailable b s) := rfl
          rw [h1, runSteps_map_convert, ← deliver_convertFold_comm b (c :: cl) s h]
          simp
      | succ n =>
          rw [List.map_cons, List.insertIdx_succ_cons]
          have h1 : runSteps
              (SceneStep.convertPixel c ::
                List.insertIdx n (SceneStep.deliverFrame b) (cl.map SceneStep.convertPixel)) s =
              runSteps
                (List.insertIdx n (SceneStep.deliverFrame b) (cl.map SceneStep.convertPixel))
                (convertStep c s) := rfl

          rw [h1, ih n (convertStep c s) h]
          simp [convertFold, Nat.succ_le_succ_iff]

/-- Claim C3: calling ConvertYuvToRGBMat twice with no intervening delivery
produces the same state, and in particular an identical RGB output buffer,
both times: the first call cleared the swap signal, so the second call
swaps nothing and reconverts the same active YUV buffer to the same RGB
bytes. -/
theorem c3_convert_pending_idempotent (s : VideoBuffer) :
    convertYuvToRGBMat (convertYuvToRGBMat s) = convertYuvToRGBMat s := by
  set s1 := convertYuvToRGBMat s with hs1
  have hsig : s1.swapSignal = false := by
    rw [hs1, convertYuv_eq, convertFold_swapSignal, swapPhase_swapSignal]
  have hh : s1.height = s.height := by
    rw [hs1, convertYuv_eq, convertFold_height, swapPhase_height]
  have hw : s1.width = s.width := by
    rw [hs1, convertYuv_eq, convertFold_width, swapPhase_width]
  have hlen : s1.rgbFrame.length = s.rgbFrame.length := by
    rw [hs1, convertYuv_eq, convertFold_rgb_length, swapPhase_rgbFrame]
  have hpix : ∀ k, rgbPixelAt s1 k = rgbPixelAt (swapPhase s) k := by
    intro k
    rw [hs1, convertYuv_eq, rgbPixelAt_convertFold]
  rw [convertYuv_eq s1, swapPhase_id_of_signal_false s1 hsig]
  have key : ∀ k : Nat,
      (convertFold (List.range (s1.height * s1.width)) s1).rgbFrame[k]? =
        s1.rgbFrame[k]? := by
    intro k
    rw [convertFold_rgb_getElem]
    by_cases hcond : k ∈ List.range (s1.height * s1.width) ∧ k < s1.rgbFrame.length
    · rw [if_pos hcond]
      have h2 : s1.rgbFrame[k]? = some (rgbPixelAt (swapPhase s) k) := by
        rw [hs1, convertYuv_eq, convertFold_rgb_getElem]
        have hcond2 : k ∈ List.range (s.height * s.width) ∧
            k < (swapPhase s).rgbFrame.length := by
          constructor
          · have := hcond.1
            rw [hh, hw] at this
            exact this
          · rw [swapPhase_rgbFrame]
            have := hcond.2
            rw [hlen] at this
            exact this
        rw [if_pos hcond2]
      rw [hpix k, h2]
    · rw [if_neg hcond]
  have hrgb : (convertFold (List.range (s1.height * s1.width)) s1).rgbFrame =
      s1.rgbFrame := List.ext_getElem? key
  exact VideoBuffer.ext (convertFold_textureId _ _) (convertFold_isAvailable _ _)
    (convertFold_width _ _) (convertFold_height _ _) (convertFold_uvOffset _ _)
    (convertFold_yuvSize _ _) (convertFold_yuvBuffer _ _) (convertFold_yuvTempBuffer _ _)
    (convertFold_swapSignal _ _) hrgb

/-- Claim C4: with the locked sections of producer and consumer taken as atomic
steps, a single producer delivery inserted at any point of an in-progress
ConvertYuvToRGBMat call (a) never writes the active slot the consumer
reads, and (b) leaves as RGB output exactly the conversion of one frame:
either the newly delivered frame (delivery before the swap) or the
previous content (delivery after the swap); never a mix. -/
theorem c4_double_buffer_no_mix (s : VideoBuffer) (b : TangoImageBuffer) (p : Nat)
    (hA : s.isAvailable = true) :
    (onFrameAvailable b s).yuvBuffer = s.yuvBuffer ∧
    ((runSteps (List.insertIdx p (SceneStep.deliverFrame b)
          (consumerTrace (s.height * s.width))) s).rgbFrame =
        (convertYuvToRGBMat (onFrameAvailable b s)).rgbFrame ∨
      (runSteps (List.insertIdx p (SceneStep.deliverFrame b)
          (consumerTrace (s.height * s.width))) s).rgbFrame =
        (convertYuvToRGBMat s).rgbFrame) := by
  constructor
  · exact (onFrameAvailable_preserves b s hA).2.2.2.2.1
  · cases p with
    | zero =>
        left
        rw [List.insertIdx_zero]
        have h1 : runSteps
            (SceneStep.deliverFrame b :: consumerTrace (s.height * s.width)) s =
            runSteps (consumerTrace (s.height * s.width)) (onFrameAvailable b s) := rfl
        rw [h1, runSteps_consumerTrace, convertYuv_eq]
        rw [(onFrameAvailable_preserves b s hA).1, (onFrameAvailable_preserves b s hA).2.1]
    | succ q =>
        right
        rw [consumerTrace, List.insertIdx_succ_cons]
        have h1 : runSteps
            (SceneStep.swapPending ::
              List.insertIdx q (SceneStep.deliverFrame b)
                ((List.range (s.height * s.width)).map SceneStep.convertPixel)) s =
            runSteps
              (List.insertIdx q (SceneStep.deliverFrame b)
                ((List.range (s.height * s.width)).map SceneStep.convertPixel))
              (swapPhase s) := rfl
        have hAs : (swapPhase s).isAvailable = true := by
          rw [swapPhase_isAvailable]
          exact hA
        rw [h1, runSteps_insertIdx_deliver b (List.range (s.height * s.width)) q
          (swapPhase s) hAs]
        by_cases hq : q ≤ (List.range (s.height * s.width)).length
        · rw [if_pos hq]
          have hAf : (convertFold (List.range (s.height * s.width))
              (swapPhase s)).isAvailable = true := by
            rw [convertFold_isAvailable]
            exact hAs
          rw [(onFrameAvailable_preserves b _ hAf).2.2.2.2.2.1, convertYuv_eq]
        · rw [if_neg hq, convertYuv_eq]

/-- Witness for C4 at a concrete running state, frame and interleaving
point. -/
theorem c4_double_buffer_no_mix_witness :
    testVideoState.isAvailable = true ∧
    ((onFrameAvailable frame2x2 testVideoState).yuvBuffer = testVideoState.yuvBuffer ∧
      ((runSteps (List.insertIdx 1 (SceneStep.deliverFrame frame2x2)
            (consumerTrace (testVideoState.height * testVideoState.width)))
            testVideoState).rgbFrame =
          (convertYuvToRGBMat (onFrameAvailable frame2x2 testVideoState)).rgbFrame ∨
        (runSteps (List.insertIdx 1 (SceneStep.deliverFrame frame2x2)
            (consumerTrace (testVideoState.height * testVideoState.width)))
            testVideoState).rgbFrame =
          (convertYuvToRGBMat testVideoState).rgbFrame)) :=
  ⟨rfl, c4_double_buffer_no_mix testVideoState frame2x2 1 rfl⟩

/-- Claim C1: for every frame state and every row i, the conversion of a pixel
at an odd column j reads exactly the chroma (U, V) byte pair read for the
preceding even column j - 1 (no interpolation), and the RGB output pixel
written for (i, j) by ConvertYuvToRGBMat is Yuv2Rgb of the luma at (i, j)
with that reused chroma pair. -/
theorem c1_odd_column_reuses_chroma (s : VideoBuffer) (i j : Nat)
    (hj : j % 2 = 1) (hjw : j < s.width) (hih : i < s.height)
    (hlen : i * s.width + j < s.rgbFrame.length) :
    chromaUByte s i j = chromaUByte s i (j - 1) ∧
    chromaVByte s i j = chromaVByte s i (j - 1) ∧
    rgbPixel s i j =
      Yuv2Rgb (lumaByte s i j) (chromaUByte s i (j - 1)) (chromaVByte s i (j - 1)) ∧
    (convertYuvToRGBMat s).rgbFrame[i * s.width + j]? =
      some (Yuv2Rgb (lumaByte (swapPhase s) i j)
        (chromaUByte (swapPhase s) i (j - 1)) (chromaVByte (swapPhase s) i (j - 1))) := by
  have hx : xIndex j = j - 1 := by
    rw [xIndex, if_pos (by omega)]
  have hx2 : xIndex (j - 1) = j - 1 := by
    rw [xIndex, if_neg (by omega)]
  have hchromaU : ∀ t : VideoBuffer, chromaUByte t i j = chromaUByte t i (j - 1) := by
    intro t
    rw [chromaUByte, chromaUByte, hx, hx2]
  have hchromaV : ∀ t : VideoBuffer, chromaVByte t i j = chromaVByte t i (j - 1) := by
    intro t
    rw [chromaVByte, chromaVByte, hx, hx2]
  refine ⟨hchromaU s, hchromaV s, ?_, ?_⟩
  · rw [rgbPixel, hchromaU s, hchromaV s]
  · have hwpos : 0 < s.width := by omega
    have hk : i * s.width + j < s.height * s.width := by
      calc i * s.width + j < i * s.width + s.width := by omega
        _ = (i + 1) * s.width := by ring
        _ ≤ s.height * s.width := Nat.mul_le_mul_right _ (by omega)
    rw [convertYuv_eq, convertFold_rgb_getElem]
    rw [if_pos ⟨List.mem_range.mpr hk, by rw [swapPhase_rgbFrame]; exact hlen⟩]
    have hdiv : (i * s.width + j) / s.width = i := by
      rw [Nat.add_comm, Nat.mul_comm, Nat.add_mul_div_left _ _ hwpos,
        Nat.div_eq_of_lt hjw]
      omega
    have hmod : (i * s.width + j) % s.width = j := by
      rw [Nat.add_comm, Nat.mul_comm, Nat.add_mul_mod_self_left, Nat.mod_eq_of_lt hjw]
    rw [rgbPixelAt, swapPhase_width, hdiv, hmod, rgbPixel,
      hchromaU (swapPhase s), hchromaV (swapPhase s)]

/-- Witness for C1 at a concrete 2 by 2 frame state, row 1, odd column
1. -/
theorem c1_odd_column_reuses_chroma_witness :
    (1 % 2 = 1 ∧ 1 < testVideoState.width ∧ 1 < testVideoState.height ∧
      1 * testVideoState.width + 1 < testVideoState.rgbFrame.length) ∧
    (chromaUByte testVideoState 1 1 = chromaUByte testVideoState 1 (1 - 1) ∧
      chromaVByte testVideoState 1 1 = chromaVByte testVideoState 1 (1 - 1) ∧
      rgbPixel testVideoState 1 1 =
        Yuv2Rgb (lumaByte testVideoState 1 1) (chromaUByte testVideoState 1 (1 - 1))
          (chromaVByte testVideoState 1 (1 - 1)) ∧
      (convertYuvToRGBMat testVideoState).rgbFrame[1 * testVideoState.width + 1]? =
        some (Yuv2Rgb (lumaByte (swapPhase testVideoState) 1 1)
          (chromaUByte (swapPhase testVideoState) 1 (1 - 1))
          (chromaVByte (swapPhase testVideoState) 1 (1 - 1)))) :=
  ⟨⟨rfl, by decide, by decide, by decide⟩,
    c1_odd_column_reuses_chroma testVideoState 1 1 rfl (by decide) (by decide) (by decide)⟩

/-- Claim C10: a frame delivery while the video overlay texture id is 0 returns
after logging with the Scene state fully unchanged: no latch of the
dimensions, no buffer allocation, no copy, no swap signal. -/
theorem c10_invalid_texture_no_mutation (b : TangoImageBuffer) (s : VideoBuffer)
    (h : s.textureId = 0) : onFrameAvailable b s = s := by
  rw [onFrameAvailable, h]
  simp

/-- Witness for C10 at the fresh zero-texture state and a valid frame. -/
theorem c10_invalid_texture_no_mutation_witness :
    zeroTexState.textureId = 0 ∧ onFrameAvailable frame4x2 zeroTexState = zeroTexState :=
  ⟨rfl, c10_invalid_texture_no_mutation frame4x2 zeroTexState rfl⟩

/-- Claim C5 counterexample: after a first 4 by 2 delivery latches the
dimensions, a second delivery with the different size 2 by 2 is not
rejected: the code keeps the latched dimensions, raises the swap signal,
and copies the latched byte count of 12 bytes out of a frame that supplies
only 6, so the claimed fail-fast behavior is refuted at this input. -/
theorem c5_counterexample_silent_copy :
    frame2x2.width = 2 ∧ frame2x2.height = 2 ∧
    (onFrameAvailable frame2x2 (onFrameAvailable frame4x2 initialVideoState)).width = 4 ∧
    (onFrameAvailable frame2x2 (onFrameAvailable frame4x2 initialVideoState)).height = 2 ∧
    (onFrameAvailable frame2x2
      (onFrameAvailable frame4x2 initialVideoState)).swapSignal = true ∧
    (onFrameAvailable frame2x2
      (onFrameAvailable frame4x2 initialVideoState)).yuvTempBuffer.length = 12 ∧
    frame2x2.data.length = 6 := by
  decide

/-- Claim C5 amended: the first accepted delivery latches width/height and
allocates the derived buffers; every later accepted delivery performs no
dimension check at all: it keeps the latched dimensions and buffer sizes
and copies the latched byte count yuv_size_ from the new frame data
unconditionally (an out-of-bounds read when the new frame is smaller),
raising the swap signal. -/
theorem c5_amended_unchecked_dimensions (s : VideoBuffer) (b : TangoImageBuffer)
    (ht : ¬ s.textureId = 0) (hf : b.format = PixelFormat.YCrCb420SP) :
    (s.isAvailable = false →
      onFrameAvailable b s =
        { s with
          width := b.width
          height := b.height
          uvOffset := b.width * b.height
          yuvSize := b.width * b.height + b.width * b.height / 2
          yuvBuffer := List.replicate (b.width * b.height + b.width * b.height / 2) 0
          yuvTempBuffer := memcpyBytes (b.width * b.height + b.width * b.height / 2) b.data
          rgbFrame := List.replicate (b.width * b.height) (0, 0, 0)
          isAvailable := true
          swapSignal := true }) ∧
    (s.isAvailable = true →
      onFrameAvailable b s =
        { s with yuvTempBuffer := memcpyBytes s.yuvSize b.data, swapSignal := true }) := by
  constructor
  · intro hav
    rw [onFrameAvailable]
    simp [ht, hf, hav]
  · intro hav
    rw [onFrameAvailable_of_available b s hav, if_neg ht, if_neg (by simp [hf])]

/-- Witness for C5 amended: a second delivery into a running 2 by 2 state
only refreshes the temp slot from the latched byte count and raises the
signal. -/
theorem c5_amended_unchecked_dimensions_witness :
    onFrameAvailable frame2x2 testVideoState =
      { testVideoState with
        yuvTempBuffer := memcpyBytes testVideoState.yuvSize frame2x2.data
        swapSignal := true } :=
  (c5_amended_unchecked_dimensions testVideoState frame2x2 (by decide) rfl).2 rfl

/-- Claim C6: after two successive depth deliveries the stored vertex list read
by the consumer is exactly the second point list, each point contributing
(x * 0.9, y * 1.2, z) in delivered order; nothing derived from the first
delivery or from the prior store state survives. -/
theorem c6_point_cloud_replace_on_write (A B : TangoXYZij) (s : DepthStore) :
    snapshotVertices (onXYZijAvailable B (onXYZijAvailable A s)) =
      (B.xyz.map scaledPoint).flatten ∧
    (∀ p : ℚ × ℚ × ℚ, scaledPoint p = [p.1 * (9 / 10), p.2.1 * (12 / 10), p.2.2]) :=
  ⟨rfl, fun _ => rfl⟩

/-- Claim C7: a SetCameraType call with the FirstPerson mode always leaves the
video overlay detached (no parent) with identity scale, zero position and
identity rotation, regardless of how many mode switches happened before
and of the overlay state they left behind. -/
theorem c7_first_person_overlay_reset (ms : List CameraType) (s : SceneModes) :
    (setCameraType CameraType.firstPerson (applyModeRequests ms s)).yuvDrawable =
      { parent := none
        scale := (1, 1, 1)
        position := (0, 0, 0)
        rotation := (1, 0, 0, 0) } := by
  rw [setCameraType]
  simp [firstPersonOverlayTransform]

/-- Claim C8 counterexample: with an incomplete framebuffer status the error is
logged, but initialization continues (all drawables allocated) and a
subsequent render still performs the offscreen depth pass, with an action
sequence identical to the complete-status case; the claimed abort of the
depth-composite feature is refuted. -/
theorem c8_counterexample_feature_not_aborted :
    (initGLContent FbStatus.incomplete).fbErrorLogged = true ∧
    (initGLContent FbStatus.incomplete).drawablesAllocated = true ∧
    RenderAction.depthPassRender ∈
      renderActions (initGLContent FbStatus.incomplete) true CameraType.thirdPerson ∧
    renderActions (initGLContent FbStatus.incomplete) true CameraType.thirdPerson =
      renderActions (initGLContent FbStatus.complete) true CameraType.thirdPerson := by
  decide

/-- Claim C8 amended: a failed completeness check at initialization is logged,
but initialization continues and per-frame rendering is unaffected: the
action sequence, depth pass included, is identical to the one after a
successful check; the feature is not aborted. -/
theorem c8_amended_logged_but_not_aborted (status : FbStatus) (avail : Bool)
    (ct : CameraType) :
    (initGLContent status).fbErrorLogged = decide (status ≠ FbStatus.complete) ∧
    (initGLContent status).drawablesAllocated = true ∧
    renderActions (initGLContent status) avail ct =
      renderActions (initGLContent FbStatus.complete) avail ct :=
  ⟨rfl, rfl, rfl⟩

/-- Claim C9 counterexample: SetupViewPort with height 0 logs the error but is
not a no-op: the aspect ratio is still set from the zero height and the
viewport is still applied, refuting the claimed rejected-input behavior at
this input. -/
theorem c9_counterexample_not_noop :
    (setupViewPort 0 0 640 0).heightErrorLogged = true ∧
    (setupViewPort 0 0 640 0).aspectRatioArg = some (640, 0) ∧
    (setupViewPort 0 0 640 0).viewportArg = some (0, 0, 640, 0) := by
  decide

/-- Claim C9 amended: a zero height is logged as an error, but the call then
proceeds unconditionally: the camera aspect ratio is set from the zero
height (a division by zero) and the viewport is applied; no early return
exists. -/
theorem c9_amended_logged_but_proceeds (x y w : Int) :
    setupViewPort x y w 0 =
      { heightErrorLogged := true
        aspectRatioArg := some (w, 0)
        viewportArg := some (x, y, w, 0) } := by
  rw [setupViewPort]
  simp

end TangoAR
